import Mathlib

/-!
Verification of `useSyncDseBrokerData`
(`apps/frontend/src/features/wealthfolio-connect/hooks/use-sync-dse-broker-data.ts`).

The hook wraps an external asynchronous sync call in a mutation whose
`onSuccess` callback emits one keyed loading toast and whose `onError`
callback emits one error toast with a message extracted from the failure
value by the expression
`error instanceof Error ? error.message : "Unknown error"`.
-/

namespace Wealthfolio

/-- Runtime value a rejected sync call can deliver to the `onError`
callback. `errorInstance` is an instance of the `Error` class (it carries
a string `message` field); `objectWithMessage` is a non-`Error` object
that nevertheless carries a string `message` field; `stringValue`,
`undefinedValue` and `otherValue` carry no `message` field. -/
inductive JsValue where
  | errorInstance (message : String)
  | objectWithMessage (message : String)
  | stringValue (s : String)
  | undefinedValue
  | otherValue
deriving DecidableEq, Repr

/-- The `error instanceof Error` test. -/
def JsValue.instanceofError : JsValue → Bool
  | .errorInstance _ => true
  | _ => false

/-- Reading the `message` field of the value, when it has one. -/
def JsValue.messageField : JsValue → Option String
  | .errorInstance m => some m
  | .objectWithMessage m => some m
  | _ => none

/-- Options object accepted by the toast calls; the source only ever uses
the `id` entry. -/
structure ToastOptions where
  id : Option String
deriving DecidableEq, Repr

/-- Calls the hook can make into the toast subsystem. `loading` and
`error` are the two emissions present in the source; the source passes no
options object to `toast.error`, embedded as options with `id := none`.
`dismiss` exists in the toast API but is never called by this hook. -/
inductive ToastOp where
  | loading (text : String) (opts : ToastOptions)
  | error (text : String) (opts : ToastOptions)
  | dismiss (targetId : String)
deriving DecidableEq, Repr

/-- Whether a toast call is a dismissal. -/
def ToastOp.isDismiss : ToastOp → Bool
  | .dismiss _ => true
  | _ => false

/-- The key of a toast call, when its options carry one. -/
def ToastOp.key : ToastOp → Option String
  | .loading _ opts => opts.id
  | .error _ opts => opts.id
  | .dismiss targetId => some targetId

/-- The `onSuccess` callback of the mutation:
`toast.loading("Syncing DSE broker data...", { id: "dse-broker-sync-start" })`. -/
def onSuccess : List ToastOp :=
  [ToastOp.loading "Syncing DSE broker data..." { id := some "dse-broker-sync-start" }]

/-- The message extraction of the `onError` callback:
`error instanceof Error ? error.message : "Unknown error"`. -/
def extractMessage (error : JsValue) : String :=
  match error with
  | .errorInstance message => message
  | _ => "Unknown error"

/-- The `onError` callback of the mutation:
`` toast.error(`Failed to start DSE sync: ...`) ``. -/
def onError (error : JsValue) : List ToastOp :=
  [ToastOp.error ("Failed to start DSE sync: " ++ extractMessage error) { id := none }]

/-- Outcome of one trigger invocation: the sync start request was accepted,
or it failed with a value. -/
inductive Outcome where
  | accepted
  | failed (error : JsValue)
deriving DecidableEq, Repr

/-- The toast calls the hook makes for one settled invocation outcome. -/
def notificationsFor : Outcome → List ToastOp
  | .accepted => onSuccess
  | .failed e => onError e

/-- Result surface the mutation primitive hands back after one invocation
settles: the toast calls made by the callbacks and the conventional error
field. -/
structure MutationResult where
  toasts : List ToastOp
  errorField : Option JsValue
deriving DecidableEq, Repr

/-- Modelled from the spec: the dispatch of the underlying mutation
primitive (the generic mutation wrapper is not part of this file). Its
documented contract runs the mutation function, catches a rejection or
throw (the `Except.error` case of the argument), routes the outcome to
`onSuccess` or `onError`, and itself returns normally rather than
throwing, exposing a failure only through the error field. -/
def mutate (mutationFnResult : Except JsValue Unit) : Except JsValue MutationResult :=
  match mutationFnResult with
  | .ok _ => .ok { toasts := onSuccess, errorField := none }
  | .error e => .ok { toasts := onError e, errorField := some e }

/-- Phase of one invocation of the returned trigger. -/
inductive Phase where
  | idle
  | pending
  | settled (o : Outcome)
deriving DecidableEq, Repr

/-- Observable state of one invocation of the hook: its phase, how many
times the external sync function was called, the toast calls emitted so
far, and any exception rethrown to the caller of the trigger. -/
structure HookState where
  phase : Phase
  serviceCalls : Nat
  emitted : List ToastOp
  thrownToCaller : Option JsValue
deriving DecidableEq, Repr

/-- Before the trigger is invoked: nothing called, nothing emitted. -/
def initialState : HookState :=
  { phase := .idle, serviceCalls := 0, emitted := [], thrownToCaller := none }

/-- Step relation of one invocation, read off the hook plus the mutation
lifecycle the spec records (idle, pending, settled): invoking the trigger
issues exactly one call to the external sync function; when the call
settles, the matching callback runs and appends its toast calls. The hook
installs no retry and rethrows nothing, so no step issues a second
service call for the same invocation and no step fills `thrownToCaller`. -/
inductive Step : HookState → HookState → Prop where
  | invoke (s : HookState) (h : s.phase = Phase.idle) :
      Step s { s with phase := Phase.pending, serviceCalls := s.serviceCalls + 1 }
  | settleSuccess (s : HookState) (h : s.phase = Phase.pending) :
      Step s { s with phase := Phase.settled Outcome.accepted,
                      emitted := s.emitted ++ onSuccess }
  | settleFailure (s : HookState) (e : JsValue) (h : s.phase = Phase.pending) :
      Step s { s with phase := Phase.settled (Outcome.failed e),
                      emitted := s.emitted ++ onError e }

/-- States an invocation can reach from the initial state. -/
inductive Reachable : HookState → Prop where
  | init : Reachable initialState
  | step {s t : HookState} : Reachable s → Step s t → Reachable t

/-- The inductive invariant of one invocation: nothing thrown to the
caller, and the emitted toasts and service-call count are determined by
the phase. -/
def hookInvariant (s : HookState) : Prop :=
  s.thrownToCaller = none ∧
  ((s.phase = Phase.idle ∧ s.serviceCalls = 0 ∧ s.emitted = []) ∨
   (s.phase = Phase.pending ∧ s.serviceCalls = 1 ∧ s.emitted = []) ∨
   (∃ o, s.phase = Phase.settled o ∧ s.serviceCalls = 1 ∧
     s.emitted = notificationsFor o))

lemma reachable_hookInvariant {s : HookState} (h : Reachable s) : hookInvariant s := by
  induction h with
  | init => exact ⟨rfl, Or.inl ⟨rfl, rfl, rfl⟩⟩
  | step _ hstep ih =>
    obtain ⟨hthrow, hcase⟩ := ih
    cases hstep with
    | invoke h0 =>
      rcases hcase with ⟨_, hc, he⟩ | ⟨hp, _, _⟩ | ⟨o, hp, _, _⟩
      · exact ⟨hthrow, Or.inr (Or.inl ⟨rfl, by simp [hc], he⟩)⟩
      · rw [h0] at hp; cases hp
      · rw [h0] at hp; cases hp
    | settleSuccess h0 =>
      rcases hcase with ⟨hp, _, _⟩ | ⟨_, hc, he⟩ | ⟨o, hp, _, _⟩
      · rw [h0] at hp; cases hp
      · exact ⟨hthrow, Or.inr (Or.inr ⟨Outcome.accepted, rfl, hc, by
          simp [he, notificationsFor]⟩)⟩
      · rw [h0] at hp; cases hp
    | settleFailure e h0 =>
      rcases hcase with ⟨hp, _, _⟩ | ⟨_, hc, he⟩ | ⟨o, hp, _, _⟩
      · rw [h0] at hp; cases hp
      · exact ⟨hthrow, Or.inr (Or.inr ⟨Outcome.failed e, rfl, hc, by
          simp [he, notificationsFor]⟩)⟩
      · rw [h0] at hp; cases hp

lemma settled_terminal {s t : HookState} {o : Outcome}
    (hp : s.phase = Phase.settled o) : ¬ Step s t := by
  intro hstep
  cases hstep with
  | invoke h0 => rw [hp] at h0; cases h0
  | settleSuccess h0 => rw [hp] at h0; cases h0
  | settleFailure e h0 => rw [hp] at h0; cases h0

/-- Severity of a visible toast entry. -/
inductive Severity where
  | loading
  | error
deriving DecidableEq, Repr

/-- One visible entry of the notification registry. -/
structure ToastEntry where
  key : String
  severity : Severity
  text : String
deriving DecidableEq, Repr

/-- Modelled from the spec: the process-wide notification registry of the
toast subsystem (its code is outside this file), a mapping from key to
current entry with update-or-insert semantics for identified toasts; a
toast carrying no identifier receives a fresh generated key, counted by
`nextAutoId`. -/
structure Registry where
  entries : List ToastEntry
  nextAutoId : Nat
deriving DecidableEq, Repr

/-- Fresh key generated for a toast emitted without an identifier. -/
def autoKey (n : Nat) : String :=
  "wf-toast-" ++ toString n

/-- Update the entry under `k` in place, or insert it at the end. -/
def upsert (k : String) (sev : Severity) (text : String) :
    List ToastEntry → List ToastEntry
  | [] => [⟨k, sev, text⟩]
  | e :: rest =>
    if e.key = k then ⟨k, sev, text⟩ :: rest else e :: upsert k sev text rest

/-- The entry currently visible under `k`, when one exists. -/
def lookupEntry (k : String) : List ToastEntry → Option ToastEntry
  | [] => none
  | e :: rest => if e.key = k then some e else lookupEntry k rest

/-- Modelled from the spec: how the notification registry consumes one
toast call. An identified toast updates or supersedes the entry under its
key; a toast without an identifier is appended under a fresh generated
key; a dismissal removes the entry under its key. -/
def applyToast (r : Registry) : ToastOp → Registry
  | .loading text opts =>
    match opts.id with
    | some k => { r with entries := upsert k .loading text r.entries }
    | none =>
      { entries := r.entries ++ [⟨autoKey r.nextAutoId, .loading, text⟩],
        nextAutoId := r.nextAutoId + 1 }
  | .error text opts =>
    match opts.id with
    | some k => { r with entries := upsert k .error text r.entries }
    | none =>
      { entries := r.entries ++ [⟨autoKey r.nextAutoId, .error, text⟩],
        nextAutoId := r.nextAutoId + 1 }
  | .dismiss targetId =>
    { r with entries := r.entries.filter (fun en => en.key != targetId) }

/-- The registry after a list of toast calls, first to last. -/
def applyOps (r : Registry) : List ToastOp → Registry
  | [] => r
  | op :: rest => applyOps (applyToast r op) rest

lemma lookupEntry_upsert_self (k : String) (sev : Severity) (text : String)
    (l : List ToastEntry) :
    lookupEntry k (upsert k sev text l) = some ⟨k, sev, text⟩ := by
  induction l with
  | nil => simp [upsert, lookupEntry]
  | cons e rest ih =>
    by_cases hk : e.key = k
    · simp [upsert, lookupEntry, hk]
    · simp [upsert, lookupEntry, hk, ih]

lemma lookupEntry_upsert_other (k k' : String) (sev : Severity) (text : String)
    (l : List ToastEntry) (h : k' ≠ k) :
    lookupEntry k' (upsert k sev text l) = lookupEntry k' l := by
  have h2 : ¬ (k = k') := fun hh => h hh.symm
  induction l with
  | nil => simp [upsert, lookupEntry, h2]
  | cons e rest ih =>
    by_cases hk : e.key = k
    · simp [upsert, hk, lookupEntry, h2]
    · simp [upsert, hk, lookupEntry, ih]

/-- The state of an invocation that was triggered and settled with
acceptance. -/
def acceptedState : HookState :=
  { phase := Phase.settled Outcome.accepted, serviceCalls := 1,
    emitted := onSuccess, thrownToCaller := none }

/-- The state of an invocation that was triggered and settled with the
failure `Error("network down")`. -/
def failedState : HookState :=
  { phase := Phase.settled (Outcome.failed (JsValue.errorInstance "network down")),
    serviceCalls := 1,
    emitted := onError (JsValue.errorInstance "network down"),
    thrownToCaller := none }

/-- The state of an invocation right after the trigger was invoked. -/
def pendingState : HookState :=
  { phase := Phase.pending, serviceCalls := 1, emitted := [],
    thrownToCaller := none }

lemma reachable_pendingState : Reachable pendingState :=
  Reachable.step Reachable.init (Step.invoke initialState rfl)

lemma reachable_acceptedState : Reachable acceptedState :=
  Reachable.step reachable_pendingState (Step.settleSuccess _ rfl)

lemma reachable_failedState : Reachable failedState :=
  Reachable.step reachable_pendingState
    (Step.settleFailure _ (JsValue.errorInstance "network down") rfl)

lemma reachable_settled {s : HookState} {o : Outcome} (h : Reachable s)
    (hp : s.phase = Phase.settled o) :
    s.serviceCalls = 1 ∧ s.emitted = notificationsFor o ∧
      s.thrownToCaller = none := by
  obtain ⟨ht, hc⟩ := reachable_hookInvariant h
  rcases hc with ⟨hp', _, _⟩ | ⟨hp', _, _⟩ | ⟨o', hp', hcalls, he⟩
  · rw [hp] at hp'; cases hp'
  · rw [hp] at hp'; cases hp'
  · rw [hp] at hp'
    injection hp' with ho
    subst ho
    exact ⟨hcalls, he, ht⟩

/-- C1 counterexample: the failure value `{ message: "network down" }` — a
non-`Error` object — carries the textual message field `"network down"`,
yet the emitted text is `"Failed to start DSE sync: Unknown error"`, not
the prefix followed by that message, refuting the claim that a carried
textual message field is always used. -/
theorem C1_counterexample_message_field :
    (JsValue.objectWithMessage "network down").messageField =
      some "network down" ∧
    onError (JsValue.objectWithMessage "network down") ≠
      [ToastOp.error "Failed to start DSE sync: network down"
        { id := none }] ∧
    onError (JsValue.objectWithMessage "network down") =
      [ToastOp.error "Failed to start DSE sync: Unknown error"
        { id := none }] := by
  refine ⟨rfl, ?_, rfl⟩
  decide

/-- C1 (amended): for every failing trigger invocation exactly one error
notification is emitted, its text is the fixed prefix followed by the
extracted message, where the original message is used exactly when the
failure value is an instance of the `Error` class (otherwise
`"Unknown error"`); an `Error` instance with message `"network down"`
yields exactly `"Failed to start DSE sync: network down"`. -/
theorem C1_error_notification_text (e : JsValue) :
    (onError e).length = 1 ∧
    (∀ m, e = JsValue.errorInstance m →
      onError e = [ToastOp.error ("Failed to start DSE sync: " ++ m)
        { id := none }]) ∧
    (e.instanceofError = false →
      onError e = [ToastOp.error "Failed to start DSE sync: Unknown error"
        { id := none }]) ∧
    onError (JsValue.errorInstance "network down") =
      [ToastOp.error "Failed to start DSE sync: network down"
        { id := none }] := by
  refine ⟨rfl, ?_, ?_, rfl⟩
  · intro m hm
    subst hm
    rfl
  · intro hi
    cases e with
    | errorInstance m => cases hi
    | objectWithMessage m => rfl
    | stringValue s => rfl
    | undefinedValue => rfl
    | otherValue => rfl

/-- C2: for every successful trigger invocation exactly one loading
notification is emitted, keyed by `"dse-broker-sync-start"`, with text
`"Syncing DSE broker data..."`, and it is the first (indeed only)
notification of that invocation. -/
theorem C2_loading_notification (s : HookState) (h : Reachable s)
    (hp : s.phase = Phase.settled Outcome.accepted) :
    s.emitted = [ToastOp.loading "Syncing DSE broker data..."
      { id := some "dse-broker-sync-start" }] ∧
    s.emitted.head? = some (ToastOp.loading "Syncing DSE broker data..."
      { id := some "dse-broker-sync-start" }) := by
  obtain ⟨_, he, _⟩ := reachable_settled h hp
  rw [he]
  exact ⟨rfl, rfl⟩

/-- C2 witness: the state reached by invoking the trigger and settling
with acceptance carries exactly the keyed loading notification. -/
theorem C2_loading_notification_witness :
    acceptedState.emitted = [ToastOp.loading "Syncing DSE broker data..."
      { id := some "dse-broker-sync-start" }] ∧
    acceptedState.emitted.head? =
      some (ToastOp.loading "Syncing DSE broker data..."
        { id := some "dse-broker-sync-start" }) :=
  C2_loading_notification acceptedState reachable_acceptedState rfl

/-- C3: every settled invocation outcome emits exactly one notification:
the loading one on success, the error one on failure, never both and
never zero. -/
theorem C3_exactly_one_notification (o : Outcome) :
    (notificationsFor o).length = 1 ∧
    (o = Outcome.accepted →
      ∃ t opts, notificationsFor o = [ToastOp.loading t opts]) ∧
    (∀ e, o = Outcome.failed e →
      ∃ t opts, notificationsFor o = [ToastOp.error t opts]) := by
  cases o with
  | accepted =>
    refine ⟨rfl, fun _ => ⟨_, _, rfl⟩, ?_⟩
    intro e he
    cases he
  | failed e =>
    refine ⟨rfl, ?_, fun e' he' => ⟨_, _, rfl⟩⟩
    intro he
    cases he

/-- C4: for every failing trigger invocation whose failure value carries
no textual message field, the emitted error text equals exactly
`"Failed to start DSE sync: Unknown error"`. -/
theorem C4_unknown_error_fallback (e : JsValue)
    (h : e.messageField = none) :
    onError e = [ToastOp.error "Failed to start DSE sync: Unknown error"
      { id := none }] := by
  cases e with
  | errorInstance m => exact absurd h (by simp [JsValue.messageField])
  | objectWithMessage m => exact absurd h (by simp [JsValue.messageField])
  | stringValue s => rfl
  | undefinedValue => rfl
  | otherValue => rfl

/-- C4 witness: a plain string failure value carries no message field and
yields the fallback text. -/
theorem C4_unknown_error_fallback_witness :
    (JsValue.stringValue "boom").messageField = none ∧
    onError (JsValue.stringValue "boom") =
      [ToastOp.error "Failed to start DSE sync: Unknown error"
        { id := none }] :=
  ⟨rfl, C4_unknown_error_fallback (JsValue.stringValue "boom") rfl⟩

/-- C5: the message extraction uses the original message exactly when the
failure value is an instance of the `Error` class; a non-`Error` object
carrying a textual message field still yields
`"Failed to start DSE sync: Unknown error"`. -/
theorem C5_instanceof_gate (m : String) :
    (JsValue.objectWithMessage m).messageField = some m ∧
    (JsValue.objectWithMessage m).instanceofError = false ∧
    onError (JsValue.objectWithMessage m) =
      [ToastOp.error "Failed to start DSE sync: Unknown error"
        { id := none }] ∧
    (∀ mm, onError (JsValue.errorInstance mm) =
      [ToastOp.error ("Failed to start DSE sync: " ++ mm) { id := none }]) :=
  ⟨rfl, rfl, rfl, fun _ => rfl⟩

/-- C6: invoking the trigger never throws synchronously: for every result
of the mutation function, the dispatch returns normally and the outcome
surfaces only through the success or error callback path (and the
conventional error field). -/
theorem C6_never_throws (r : Except JsValue Unit) :
    ∃ res, mutate r = Except.ok res ∧
      (r = Except.ok () → res.toasts = onSuccess) ∧
      (∀ e, r = Except.error e →
        res.toasts = onError e ∧ res.errorField = some e) := by
  cases r with
  | ok u =>
    refine ⟨_, rfl, fun _ => rfl, ?_⟩
    intro e he
    cases he
  | error e =>
    refine ⟨_, rfl, ?_, ?_⟩
    · intro he
      cases he
    · intro e' he'
      injection he' with h1
      subst h1
      exact ⟨rfl, rfl⟩

/-- C7: in every reachable state of an invocation, no notification has
been emitted before the trigger was invoked (idle phase, or zero service
calls, means nothing emitted), and never more than one notification is
emitted for the invocation outcome. -/
theorem C7_never_early_never_double (s : HookState) (h : Reachable s) :
    (s.phase = Phase.idle → s.emitted = []) ∧
    (s.serviceCalls = 0 → s.emitted = []) ∧
    s.emitted.length ≤ 1 := by
  obtain ⟨_, hc⟩ := reachable_hookInvariant h
  rcases hc with ⟨hp, hcalls, he⟩ | ⟨hp, hcalls, he⟩ | ⟨o, hp, hcalls, he⟩
  · exact ⟨fun _ => he, fun _ => he, by simp [he]⟩
  · refine ⟨fun hi => he, fun _ => he, by simp [he]⟩
  · refine ⟨?_, ?_, ?_⟩
    · intro hi
      rw [hp] at hi
      cases hi
    · intro hz
      rw [hcalls] at hz
      cases hz
    · rw [he]
      cases o with
      | accepted => exact le_refl 1
      | failed e => exact le_refl 1

/-- C7 witness: the initial state satisfies the never-properties. -/
theorem C7_never_early_never_double_witness :
    (initialState.phase = Phase.idle → initialState.emitted = []) ∧
    (initialState.serviceCalls = 0 → initialState.emitted = []) ∧
    initialState.emitted.length ≤ 1 :=
  C7_never_early_never_double initialState Reachable.init

/-- C8: a failing invocation is terminal: the external sync function was
called exactly once (no retry), nothing was rethrown to the caller, the
failure is reported exclusively via the single error notification, no
further step exists for the invocation, and the mutation dispatch exposes
the failure only through its error field. -/
theorem C8_failure_terminal (s : HookState) (e : JsValue) (h : Reachable s)
    (hp : s.phase = Phase.settled (Outcome.failed e)) :
    s.serviceCalls = 1 ∧
    s.thrownToCaller = none ∧
    s.emitted = onError e ∧
    (onError e).length = 1 ∧
    (∀ t, ¬ Step s t) ∧
    mutate (Except.error e) =
      Except.ok { toasts := onError e, errorField := some e } := by
  obtain ⟨hcalls, he, ht⟩ := reachable_settled h hp
  exact ⟨hcalls, ht, he, rfl, fun t => settled_terminal hp, rfl⟩

/-- C8 witness: the state reached by invoking the trigger and settling
with the failure `Error("network down")` is terminal as stated. -/
theorem C8_failure_terminal_witness :
    failedState.serviceCalls = 1 ∧
    failedState.thrownToCaller = none ∧
    failedState.emitted = onError (JsValue.errorInstance "network down") ∧
    (onError (JsValue.errorInstance "network down")).length = 1 ∧
    (∀ t, ¬ Step failedState t) ∧
    mutate (Except.error (JsValue.errorInstance "network down")) =
      Except.ok { toasts := onError (JsValue.errorInstance "network down"),
                  errorField := some (JsValue.errorInstance "network down") } :=
  C8_failure_terminal failedState (JsValue.errorInstance "network down")
    reachable_failedState rfl

/-- C9: a successful invocation performs exactly one toast call, which is
not a dismissal; the registry afterwards holds the loading entry under
`"dse-broker-sync-start"`, and every other key is left unchanged — the
component never dismisses or later updates its loading notification. -/
theorem C9_loading_frame (r : Registry) (k : String)
    (hk : k ≠ "dse-broker-sync-start") :
    notificationsFor Outcome.accepted =
      [ToastOp.loading "Syncing DSE broker data..."
        { id := some "dse-broker-sync-start" }] ∧
    (∀ op ∈ notificationsFor Outcome.accepted, op.isDismiss = false) ∧
    lookupEntry "dse-broker-sync-start"
        (applyOps r (notificationsFor Outcome.accepted)).entries =
      some ⟨"dse-broker-sync-start", Severity.loading,
        "Syncing DSE broker data..."⟩ ∧
    lookupEntry k (applyOps r (notificationsFor Outcome.accepted)).entries =
      lookupEntry k r.entries := by
  refine ⟨rfl, ?_, ?_, ?_⟩
  · intro op hop
    cases hop with
    | head => rfl
    | tail _ h2 => cases h2
  · show lookupEntry "dse-broker-sync-start"
      (upsert "dse-broker-sync-start" Severity.loading
        "Syncing DSE broker data..." r.entries) = _
    exact lookupEntry_upsert_self _ _ _ _
  · show lookupEntry k
      (upsert "dse-broker-sync-start" Severity.loading
        "Syncing DSE broker data..." r.entries) = _
    exact lookupEntry_upsert_other _ _ _ _ _ hk

/-- C9 witness: from an empty registry and the unrelated key `"other"`. -/
theorem C9_loading_frame_witness :
    notificationsFor Outcome.accepted =
      [ToastOp.loading "Syncing DSE broker data..."
        { id := some "dse-broker-sync-start" }] ∧
    (∀ op ∈ notificationsFor Outcome.accepted, op.isDismiss = false) ∧
    lookupEntry "dse-broker-sync-start"
        (applyOps ⟨[], 0⟩ (notificationsFor Outcome.accepted)).entries =
      some ⟨"dse-broker-sync-start", Severity.loading,
        "Syncing DSE broker data..."⟩ ∧
    lookupEntry "other"
        (applyOps ⟨[], 0⟩ (notificationsFor Outcome.accepted)).entries =
      lookupEntry "other" (⟨[], 0⟩ : Registry).entries :=
  C9_loading_frame ⟨[], 0⟩ "other" (by decide)

/-- C10: the error notification is emitted without any identifier key
(unlike the loading one), so under the registry semantics two failing
invocations append two distinct entries instead of replacing one under a
shared key. -/
theorem C10_error_unkeyed (e1 e2 : JsValue) (r : Registry) :
    (∃ t, onError e1 = [ToastOp.error t { id := none }]) ∧
    (onError e1).map ToastOp.key = [none] ∧
    (applyOps (applyOps r (onError e1)) (onError e2)).entries.length =
      r.entries.length + 2 := by
  refine ⟨⟨_, rfl⟩, rfl, ?_⟩
  simp [onError, applyOps, applyToast]

end Wealthfolio
